import Mathlib

/-!
# GrowthCheck calculator: a shallow embedding

The pure functions of `src/GrowthCheck/js/calculator.js` (and the range
computation it shares with `src/js/calculator.js`) are embedded over exact
rational numbers.  The text and progress functions of the alternate variant
`src/js/calculator.js` live under `Alternate`.  JavaScript numbers are modelled by `ℚ`; the special values
that a division can produce (`Infinity`, `-Infinity`, `NaN`) are kept
explicit in `JsNumber`.  Binary floating-point rounding and the sign of zero
are not modelled.
-/

namespace GrowthCheck

set_option linter.unusedVariables false

/-! ## Numbers -/

/-- Result of a JavaScript arithmetic expression: a finite value, one of the
two infinities, or `NaN`. -/
inductive JsNumber where
  | fin (q : ℚ)
  | posInf
  | negInf
  | nan
  deriving DecidableEq

namespace JsNumber

/-- The operator `/` on numbers; a zero divisor gives an infinity of the sign
of the dividend, and `0 / 0` is `NaN`. -/
def div : JsNumber → JsNumber → JsNumber
  | nan, _ => nan
  | _, nan => nan
  | fin a, fin b =>
      if b = 0 then (if a = 0 then nan else if 0 < a then posInf else negInf)
      else fin (a / b)
  | fin _, posInf => fin 0
  | fin _, negInf => fin 0
  | posInf, fin b => if 0 ≤ b then posInf else negInf
  | negInf, fin b => if 0 ≤ b then negInf else posInf
  | posInf, posInf => nan
  | posInf, negInf => nan
  | negInf, posInf => nan
  | negInf, negInf => nan

/-- The operator `*` on numbers; an infinity times zero is `NaN`. -/
def mul : JsNumber → JsNumber → JsNumber
  | nan, _ => nan
  | _, nan => nan
  | fin a, fin b => fin (a * b)
  | fin a, posInf => if a = 0 then nan else if 0 < a then posInf else negInf
  | fin a, negInf => if a = 0 then nan else if 0 < a then negInf else posInf
  | posInf, fin b => if b = 0 then nan else if 0 < b then posInf else negInf
  | negInf, fin b => if b = 0 then nan else if 0 < b then negInf else posInf
  | posInf, posInf => posInf
  | posInf, negInf => negInf
  | negInf, posInf => negInf
  | negInf, negInf => posInf

/-- `Math.max` of two numbers: `NaN` if either is `NaN`, else the larger. -/
def mathMax : JsNumber → JsNumber → JsNumber
  | nan, _ => nan
  | _, nan => nan
  | posInf, _ => posInf
  | _, posInf => posInf
  | negInf, y => y
  | x, negInf => x
  | fin a, fin b => fin (max a b)

/-- `Math.min` of two numbers: `NaN` if either is `NaN`, else the smaller. -/
def mathMin : JsNumber → JsNumber → JsNumber
  | nan, _ => nan
  | _, nan => nan
  | negInf, _ => negInf
  | _, negInf => negInf
  | posInf, y => y
  | x, posInf => x
  | fin a, fin b => fin (min a b)

end JsNumber

/-- The global `isNaN` on a number. -/
def JsNumber.isNaN : JsNumber → Bool
  | JsNumber.nan => true
  | _ => false

/-- The operator `<` on numbers; any comparison with `NaN` is false.  The
operator `>` is `lt` with the arguments swapped. -/
def JsNumber.lt : JsNumber → JsNumber → Bool
  | JsNumber.nan, _ => false
  | _, JsNumber.nan => false
  | JsNumber.fin a, JsNumber.fin b => decide (a < b)
  | JsNumber.fin _, JsNumber.posInf => true
  | JsNumber.fin _, JsNumber.negInf => false
  | JsNumber.negInf, JsNumber.negInf => false
  | JsNumber.negInf, _ => true
  | JsNumber.posInf, _ => false

/-- `Math.round` on a finite number: the nearest integer, ties towards
positive infinity, that is `floor (x + 1/2)`. -/
def mathRound (x : ℚ) : ℤ := ⌊x + 1 / 2⌋

/-! ## Constants -/

def MARGIN_OF_ERROR : ℚ := 17 / 2

def GENDER_ADJUSTMENT : ℚ := 13

/-! ## Data model -/

/-- The object returned by `calculateMidParentalHeight`. -/
structure HeightRange where
  min : ℤ
  max : ℤ
  midpoint : ℤ
  deriving DecidableEq

/-- The record returned by `validateFormData` and consumed by the text
generators. -/
structure FormRecord where
  age : ℤ
  gender : String
  currentHeight : ℚ
  fatherHeight : ℚ
  motherHeight : ℚ
  deriving DecidableEq

/-- One piece of a template literal: literal text, or an interpolated number
(rendered by the runtime when the string is built). -/
inductive Segment where
  | text (s : String)
  | num (q : ℚ)
  deriving DecidableEq

/-- The five values read from the form at the top of `validateFormData`:
`parseInt` gives an integer or `NaN` (`none`), `formData.get` a string or
`null` (`none`), and `parseFloat` a number. -/
structure ParsedForm where
  age : Option ℤ
  gender : Option String
  currentHeight : JsNumber
  fatherHeight : JsNumber
  motherHeight : JsNumber
  deriving DecidableEq

/-! ## Operations -/

/-- `calculateMidParentalHeight(fatherHeight, motherHeight, gender)`. -/
def calculateMidParentalHeight (fatherHeight motherHeight : ℚ) (gender : String) :
    HeightRange :=
  let midpoint : ℚ :=
    if gender = "masculino" then
      (fatherHeight + motherHeight + GENDER_ADJUSTMENT) / 2
    else
      (fatherHeight + motherHeight - GENDER_ADJUSTMENT) / 2
  { min := mathRound (midpoint - MARGIN_OF_ERROR)
    max := mathRound (midpoint + MARGIN_OF_ERROR)
    midpoint := mathRound midpoint }

/-- `calculateProgress(currentHeight, min, max)`. -/
def calculateProgress (currentHeight min max : ℚ) : JsNumber :=
  if currentHeight ≥ max then JsNumber.fin 100
  else if currentHeight ≤ min - 30 then JsNumber.fin 10
  else
    let midpoint := JsNumber.div (JsNumber.fin (min + max)) (JsNumber.fin 2)
    let progress :=
      JsNumber.mul (JsNumber.div (JsNumber.fin currentHeight) midpoint) (JsNumber.fin 100)
    JsNumber.mathMin (JsNumber.mathMax progress (JsNumber.fin 10)) (JsNumber.fin 100)

/-- `generateExplanation(data, result)`: the markup as the ordered list of its
template pieces. -/
def generateExplanation (data : FormRecord) (result : HeightRange) : List Segment :=
  let currentHeight : ℚ := data.currentHeight
  let min : ℚ := result.min
  let max : ℚ := result.max
  let html : List Segment := []
  let html := html ++
    [Segment.text "<p>Basándonos en la estatura de tus padres, tu estatura adulta probablemente estará entre <strong>",
      Segment.num min, Segment.text " cm</strong> y <strong>",
      Segment.num max, Segment.text " cm</strong>.</p>"]
  if currentHeight < min then
    let diff := min - currentHeight
    html ++
      [Segment.text "<p>Ahora mides ", Segment.num currentHeight,
        Segment.text " cm. Si sigues el patrón esperado, podrías crecer entre ",
        Segment.num diff, Segment.text " y ", Segment.num (max - currentHeight),
        Segment.text " cm más.</p>"]
  else if currentHeight ≥ min ∧ currentHeight ≤ max then
    html ++
      [Segment.text "<p>Tu estatura actual de ", Segment.num currentHeight,
        Segment.text " cm ya está dentro del rango estimado. Esto es una buena señal de que tu crecimiento va por buen camino.</p>"]
  else
    html ++
      [Segment.text "<p>Ya mides ", Segment.num currentHeight,
        Segment.text " cm, que está por encima del rango estimado. Cada persona es diferente, y esto es completamente normal.</p>"]

/-- `generateGeneticText(fatherHeight, motherHeight, gender)`. -/
def generateGeneticText (fatherHeight motherHeight : ℚ) (gender : String) : String :=
  let avgParents := (fatherHeight + motherHeight) / 2
  if avgParents ≥ 175 then
    "El promedio de tus padres es alto, lo que influye positivamente en tu potencial."
  else if avgParents ≥ 165 then
    "La estatura de tus padres está en un rango promedio."
  else
    "La estatura de tus padres es un factor, pero no el único que influye."

/-- `generateAgeText(age, gender)`: the text as the list of its pieces (the
third message of each sex concatenates the age). -/
def generateAgeText (age : ℤ) (gender : String) : List Segment :=
  if gender = "masculino" then
    if age < 12 then
      [Segment.text "A tu edad, el estirón principal todavía no ha comenzado. Suele ocurrir entre los 12 y 16 años."]
    else if age ≥ 12 ∧ age ≤ 16 then
      [Segment.text "Estás en la etapa donde más se crece. El estirón suele durar 2-3 años."]
    else
      [Segment.text "A los ", Segment.num age,
        Segment.text " años, el crecimiento generalmente está terminando o ya terminó."]
  else
    if age < 10 then
      [Segment.text "A tu edad, el estirón principal todavía no ha comenzado. Suele ocurrir entre los 10 y 14 años."]
    else if age ≥ 10 ∧ age ≤ 14 then
      [Segment.text "Estás en la etapa donde más se crece. El estirón suele durar 2-3 años."]
    else
      [Segment.text "A los ", Segment.num age,
        Segment.text " años, el crecimiento generalmente está terminando o ya terminó."]

/-- `validateFormData(formData)` after its five reads: `none` is the `null`
returned after an alert, `some` the accepted record. -/
def validateFormData (formData : ParsedForm) : Option FormRecord :=
  let currentHeight := formData.currentHeight
  let fatherHeight := formData.fatherHeight
  let motherHeight := formData.motherHeight
  match formData.age with
  | none => none
  | some age =>
    if age < 8 ∨ age > 20 then none
    else
      match formData.gender with
      | none => none
      | some gender =>
        if gender = "" then none
        else if currentHeight.isNaN || currentHeight.lt (JsNumber.fin 100)
            || (JsNumber.fin 220).lt currentHeight then none
        else if fatherHeight.isNaN || fatherHeight.lt (JsNumber.fin 140)
            || (JsNumber.fin 220).lt fatherHeight then none
        else if motherHeight.isNaN || motherHeight.lt (JsNumber.fin 140)
            || (JsNumber.fin 200).lt motherHeight then none
        else
          match currentHeight, fatherHeight, motherHeight with
          | JsNumber.fin c, JsNumber.fin f, JsNumber.fin m =>
              some { age := age, gender := gender, currentHeight := c,
                     fatherHeight := f, motherHeight := m }
          | _, _, _ => none

/-! ## Operations of the alternate variant, `src/js/calculator.js` -/

/-- `calculateProgress(current, min, max, edad, sexo)` of the alternate
variant: a percentage looked up by age and sex. -/
def Alternate.calculateProgress (current min max : ℚ) (edad : ℤ) (sexo : String) : ℚ :=
  let percentOfAdultHeight : ℚ :=
    if sexo = "masculino" then
      if edad ≤ 10 then 78
      else if edad = 11 then 81
      else if edad = 12 then 84
      else if edad = 13 then 88
      else if edad = 14 then 92
      else if edad = 15 then 95
      else if edad = 16 then 97
      else if edad = 17 then 99
      else 100
    else
      if edad ≤ 10 then 84
      else if edad = 11 then 88
      else if edad = 12 then 92
      else if edad = 13 then 95
      else if edad = 14 then 97
      else if edad = 15 then 99
      else 100
  Min.min 100 percentOfAdultHeight

/-- `generateGeneticText(fatherHeight, motherHeight, sexo)` of the alternate
variant. -/
def Alternate.generateGeneticText (fatherHeight motherHeight : ℚ) (sexo : String) : String :=
  let avgParent := (fatherHeight + motherHeight) / 2
  if avgParent > 175 then
    "Tus padres tienen estaturas por encima del promedio, lo que es favorable para tu potencial de crecimiento."
  else if avgParent > 165 then
    "Las estaturas de tus padres están en el rango promedio, lo cual influye en tu estimación."
  else
    "Las estaturas de tus padres influyen en tu rango estimado. Recuerda que otros factores también importan."

/-- `generateAgeText(edad, sexo)` of the alternate variant, as the list of the
pieces it concatenates. -/
def Alternate.generateAgeText (edad : ℤ) (sexo : String) : List Segment :=
  if sexo = "masculino" then
    if edad < 13 then
      [Segment.text "A los ", Segment.num edad,
        Segment.text " años, aún no has entrado en la etapa de mayor crecimiento, que típicamente ocurre entre los 13-16 años."]
    else if edad ≤ 16 then
      [Segment.text "A los ", Segment.num edad,
        Segment.text " años, probablemente estás en tu período de mayor crecimiento o muy cerca de él."]
    else
      [Segment.text "A los ", Segment.num edad,
        Segment.text " años, el ritmo de crecimiento ha disminuido significativamente, pero puede continuar un poco más."]
  else
    if edad < 11 then
      [Segment.text "A los ", Segment.num edad,
        Segment.text " años, el estirón de crecimiento típicamente aún no ha comenzado."]
    else if edad ≤ 14 then
      [Segment.text "A los ", Segment.num edad,
        Segment.text " años, probablemente estás experimentando o has pasado por el período de mayor crecimiento."]
    else
      [Segment.text "A los ", Segment.num edad,
        Segment.text " años, la mayoría de las chicas ya han alcanzado o están muy cerca de su estatura adulta."]

/-! ## Reference texts of the explanation -/

/-- Opening paragraph of every explanation: the predicted band. -/
def explanationIntro (lo hi : ℚ) : List Segment :=
  [Segment.text "<p>Basándonos en la estatura de tus padres, tu estatura adulta probablemente estará entre <strong>",
    Segment.num lo, Segment.text " cm</strong> y <strong>",
    Segment.num hi, Segment.text " cm</strong>.</p>"]

/-- Paragraph of the below-range branch, reporting the current height and the
two additional-growth amounts. -/
def belowRangeText (current growthLo growthHi : ℚ) : List Segment :=
  [Segment.text "<p>Ahora mides ", Segment.num current,
    Segment.text " cm. Si sigues el patrón esperado, podrías crecer entre ",
    Segment.num growthLo, Segment.text " y ", Segment.num growthHi,
    Segment.text " cm más.</p>"]

/-- Paragraph of the within-range branch. -/
def withinRangeText (current : ℚ) : List Segment :=
  [Segment.text "<p>Tu estatura actual de ", Segment.num current,
    Segment.text " cm ya está dentro del rango estimado. Esto es una buena señal de que tu crecimiento va por buen camino.</p>"]

/-- Paragraph of the above-range branch. -/
def aboveRangeText (current : ℚ) : List Segment :=
  [Segment.text "<p>Ya mides ", Segment.num current,
    Segment.text " cm, que está por encima del rango estimado. Cada persona es diferente, y esto es completamente normal.</p>"]

/-! ## Reference texts of the indicators -/

/-- The genetic indicator for a high parental average. -/
def highAverageText : String :=
  "El promedio de tus padres es alto, lo que influye positivamente en tu potencial."

/-- The genetic indicator for a parental average in the average range. -/
def averageRangeText : String :=
  "La estatura de tus padres está en un rango promedio."

/-- The genetic indicator saying parental height is one factor among several. -/
def oneFactorText : String :=
  "La estatura de tus padres es un factor, pero no el único que influye."

/-- The age indicator before the growth spurt, for sex masculino. -/
def notStartedMaleText : List Segment :=
  [Segment.text "A tu edad, el estirón principal todavía no ha comenzado. Suele ocurrir entre los 12 y 16 años."]

/-- The age indicator before the growth spurt, for any other sex. -/
def notStartedOtherText : List Segment :=
  [Segment.text "A tu edad, el estirón principal todavía no ha comenzado. Suele ocurrir entre los 10 y 14 años."]

/-- The age indicator during the peak growth window. -/
def peakGrowthText : List Segment :=
  [Segment.text "Estás en la etapa donde más se crece. El estirón suele durar 2-3 años."]

/-- The age indicator once growth is ending or has ended. -/
def growthEndingText (age : ℤ) : List Segment :=
  [Segment.text "A los ", Segment.num age,
    Segment.text " años, el crecimiento generalmente está terminando o ya terminó."]

/-- Alternate variant: the genetic text for above-average parental heights. -/
def Alternate.favorableText : String :=
  "Tus padres tienen estaturas por encima del promedio, lo que es favorable para tu potencial de crecimiento."

/-- Alternate variant: the genetic text for average parental heights. -/
def Alternate.averageText : String :=
  "Las estaturas de tus padres están en el rango promedio, lo cual influye en tu estimación."

/-- Alternate variant: the genetic text saying other factors also matter. -/
def Alternate.otherFactorsText : String :=
  "Las estaturas de tus padres influyen en tu rango estimado. Recuerda que otros factores también importan."

/-- Alternate variant: the pre-spurt age text for sex masculino. -/
def Alternate.preSpurtMaleText (edad : ℤ) : List Segment :=
  [Segment.text "A los ", Segment.num edad,
    Segment.text " años, aún no has entrado en la etapa de mayor crecimiento, que típicamente ocurre entre los 13-16 años."]

/-- Alternate variant: the peak-window age text for sex masculino. -/
def Alternate.peakMaleText (edad : ℤ) : List Segment :=
  [Segment.text "A los ", Segment.num edad,
    Segment.text " años, probablemente estás en tu período de mayor crecimiento o muy cerca de él."]

/-- Alternate variant: the ending age text for sex masculino. -/
def Alternate.endingMaleText (edad : ℤ) : List Segment :=
  [Segment.text "A los ", Segment.num edad,
    Segment.text " años, el ritmo de crecimiento ha disminuido significativamente, pero puede continuar un poco más."]

/-- Alternate variant: the pre-spurt age text for any other sex. -/
def Alternate.preSpurtOtherText (edad : ℤ) : List Segment :=
  [Segment.text "A los ", Segment.num edad,
    Segment.text " años, el estirón de crecimiento típicamente aún no ha comenzado."]

/-- Alternate variant: the peak-window age text for any other sex. -/
def Alternate.peakOtherText (edad : ℤ) : List Segment :=
  [Segment.text "A los ", Segment.num edad,
    Segment.text " años, probablemente estás experimentando o has pasado por el período de mayor crecimiento."]

/-- Alternate variant: the ending age text for any other sex. -/
def Alternate.endingOtherText (edad : ℤ) : List Segment :=
  [Segment.text "A los ", Segment.num edad,
    Segment.text " años, la mayoría de las chicas ya han alcanzado o están muy cerca de su estatura adulta."]

/-- The percentages of the alternate progress table for sex masculino. -/
def Alternate.maleTable : List ℚ := [78, 81, 84, 88, 92, 95, 97, 99, 100]

/-- The percentages of the alternate progress table for any other sex. -/
def Alternate.otherTable : List ℚ := [84, 88, 92, 95, 97, 99, 100]

/-! ## Reference rounding -/

/-- Rounding to the nearest integer with ties away from zero. -/
def roundHalfAwayFromZero (x : ℚ) : ℤ :=
  if 0 ≤ x then ⌊x + 1 / 2⌋ else ⌈x - 1 / 2⌉

/-- Reference definition of the predicted range, following the specification:
the raw midpoint rounded half away from zero, and the raw midpoint minus and
plus 8.5, each rounded half away from zero. -/
def referenceRange (father mother : ℚ) (sex : String) : HeightRange :=
  let raw : ℚ :=
    if sex = "masculino" then (father + mother + 13) / 2 else (father + mother - 13) / 2
  { min := roundHalfAwayFromZero (raw - 17 / 2)
    max := roundHalfAwayFromZero (raw + 17 / 2)
    midpoint := roundHalfAwayFromZero raw }

/-! ## The raw midpoint and rounding lemmas -/

/-- The unrounded midpoint computed inside `calculateMidParentalHeight`. -/
def rawMidpoint (fatherHeight motherHeight : ℚ) (gender : String) : ℚ :=
  if gender = "masculino" then
    (fatherHeight + motherHeight + GENDER_ADJUSTMENT) / 2
  else
    (fatherHeight + motherHeight - GENDER_ADJUSTMENT) / 2

theorem calculateMidParentalHeight_eq (f m : ℚ) (g : String) :
    calculateMidParentalHeight f m g =
      { min := mathRound (rawMidpoint f m g - MARGIN_OF_ERROR)
        max := mathRound (rawMidpoint f m g + MARGIN_OF_ERROR)
        midpoint := mathRound (rawMidpoint f m g) } := rfl

theorem mathRound_sub_margin (x : ℚ) : mathRound (x - MARGIN_OF_ERROR) = ⌊x⌋ - 8 := by
  unfold mathRound MARGIN_OF_ERROR
  have h : x - 17 / 2 + 1 / 2 = x - ((8 : ℤ) : ℚ) := by push_cast; ring
  rw [h, Int.floor_sub_int]

theorem mathRound_add_margin (x : ℚ) : mathRound (x + MARGIN_OF_ERROR) = ⌊x⌋ + 9 := by
  unfold mathRound MARGIN_OF_ERROR
  have h : x + 17 / 2 + 1 / 2 = x + ((9 : ℤ) : ℚ) := by push_cast; ring
  rw [h, Int.floor_add_int]

theorem floor_le_mathRound (x : ℚ) : ⌊x⌋ ≤ mathRound x := by
  unfold mathRound
  exact Int.floor_le_floor (by linarith)

theorem mathRound_le_floor_add_one (x : ℚ) : mathRound x ≤ ⌊x⌋ + 1 := by
  unfold mathRound
  have h : ⌊x + 1 / 2⌋ ≤ ⌊x + ((1 : ℤ) : ℚ)⌋ :=
    Int.floor_le_floor (by push_cast; linarith)
  rwa [Int.floor_add_int] at h

theorem roundHalfAwayFromZero_of_nonneg (x : ℚ) (hx : 0 ≤ x) :
    roundHalfAwayFromZero x = mathRound x := by
  simp [roundHalfAwayFromZero, mathRound, hx]

theorem rawMidpoint_ge (f m : ℚ) (g : String) (hf : 140 ≤ f) (hm : 140 ≤ m) :
    267 / 2 ≤ rawMidpoint f m g := by
  unfold rawMidpoint GENDER_ADJUSTMENT
  split <;> linarith

theorem mathRound_ofInt (z : ℤ) : mathRound (z : ℚ) = z := by
  unfold mathRound
  rw [Int.floor_int_add]
  norm_num

theorem mathRound_ofInt_add_half (z : ℤ) : mathRound ((z : ℚ) + 1 / 2) = z + 1 := by
  unfold mathRound
  have h : (z : ℚ) + 1 / 2 + 1 / 2 = ((z + 1 : ℤ) : ℚ) := by push_cast; ring
  rw [h, Int.floor_intCast]

theorem range_male_175_160 :
    calculateMidParentalHeight 175 160 "masculino"
      = { min := 166, max := 183, midpoint := 174 } := by
  rw [calculateMidParentalHeight_eq]
  have e : rawMidpoint 175 160 "masculino" = ((174 : ℤ) : ℚ) := by
    norm_num [rawMidpoint, GENDER_ADJUSTMENT]
  rw [e, mathRound_sub_margin, mathRound_add_margin, mathRound_ofInt, Int.floor_intCast]
  rfl

theorem range_female_175_160 :
    calculateMidParentalHeight 175 160 "femenino"
      = { min := 153, max := 170, midpoint := 161 } := by
  rw [calculateMidParentalHeight_eq]
  have hne : ¬ "femenino" = "masculino" := by decide
  have e : rawMidpoint 175 160 "femenino" = ((161 : ℤ) : ℚ) := by
    norm_num [rawMidpoint, GENDER_ADJUSTMENT, hne]
  rw [e, mathRound_sub_margin, mathRound_add_margin, mathRound_ofInt, Int.floor_intCast]
  rfl

theorem range_male_180_165 :
    calculateMidParentalHeight 180 165 "masculino"
      = { min := 171, max := 188, midpoint := 179 } := by
  rw [calculateMidParentalHeight_eq]
  have e : rawMidpoint 180 165 "masculino" = ((179 : ℤ) : ℚ) := by
    norm_num [rawMidpoint, GENDER_ADJUSTMENT]
  rw [e, mathRound_sub_margin, mathRound_add_margin, mathRound_ofInt, Int.floor_intCast]
  rfl

theorem range_max_eq_min_add (f m : ℚ) (g : String) :
    (calculateMidParentalHeight f m g).max = (calculateMidParentalHeight f m g).min + 17 := by
  rw [calculateMidParentalHeight_eq]
  simp only [mathRound_sub_margin, mathRound_add_margin]
  ring

theorem range_min_ge (f m : ℚ) (g : String) (hf : 140 ≤ f) (hm : 140 ≤ m) :
    125 ≤ (calculateMidParentalHeight f m g).min := by
  rw [calculateMidParentalHeight_eq]
  simp only [mathRound_sub_margin]
  have hraw := rawMidpoint_ge f m g hf hm
  have h : (133 : ℤ) ≤ ⌊rawMidpoint f m g⌋ := by
    rw [Int.le_floor]
    push_cast
    linarith
  omega

theorem calculateProgress_of_ge (h lo hi : ℚ) (hge : hi ≤ h) :
    calculateProgress h lo hi = JsNumber.fin 100 := by
  simp [calculateProgress, hge]

theorem calculateProgress_of_le (h lo hi : ℚ) (hlt : h < hi) (hle : h ≤ lo - 30) :
    calculateProgress h lo hi = JsNumber.fin 10 := by
  simp [calculateProgress, not_le.mpr hlt, hle]

theorem calculateProgress_middle (h lo hi : ℚ) (hlt : h < hi) (hgt : lo - 30 < h)
    (hne : lo + hi ≠ 0) :
    calculateProgress h lo hi
      = JsNumber.fin (min (max (h / ((lo + hi) / 2) * 100) 10) 100) := by
  have h2 : (lo + hi) / 2 ≠ 0 := by
    intro h0
    apply hne
    linarith
  simp [calculateProgress, not_le.mpr hlt, not_le.mpr hgt, JsNumber.div, JsNumber.mul,
    JsNumber.mathMax, JsNumber.mathMin, h2]

theorem generateExplanation_below (data : FormRecord) (result : HeightRange)
    (h : data.currentHeight < (result.min : ℚ)) :
    generateExplanation data result
      = explanationIntro result.min result.max
        ++ belowRangeText data.currentHeight ((result.min : ℚ) - data.currentHeight)
            ((result.max : ℚ) - data.currentHeight) := by
  simp [generateExplanation, explanationIntro, belowRangeText, h]

theorem generateExplanation_within (data : FormRecord) (result : HeightRange)
    (h1 : (result.min : ℚ) ≤ data.currentHeight) (h2 : data.currentHeight ≤ (result.max : ℚ)) :
    generateExplanation data result
      = explanationIntro result.min result.max ++ withinRangeText data.currentHeight := by
  simp [generateExplanation, explanationIntro, withinRangeText, not_lt.mpr h1, h1, h2]

theorem generateExplanation_above (data : FormRecord) (result : HeightRange)
    (h1 : (result.min : ℚ) ≤ data.currentHeight) (h2 : (result.max : ℚ) < data.currentHeight) :
    generateExplanation data result
      = explanationIntro result.min result.max ++ aboveRangeText data.currentHeight := by
  simp [generateExplanation, explanationIntro, aboveRangeText, not_lt.mpr h1, not_le.mpr h2]

theorem belowRangeText_ne_within (c a b c2 : ℚ) : belowRangeText c a b ≠ withinRangeText c2 := by
  simp [belowRangeText, withinRangeText]

theorem belowRangeText_ne_above (c a b c2 : ℚ) : belowRangeText c a b ≠ aboveRangeText c2 := by
  simp [belowRangeText, aboveRangeText]

theorem withinRangeText_ne_above (c c2 : ℚ) : withinRangeText c ≠ aboveRangeText c2 := by
  simp [withinRangeText, aboveRangeText]

/-! ## Claims -/

/-- C1: for all father and mother heights and every sex value, the range of
`calculateMidParentalHeight` spans exactly 17: `max - min = 17`. -/
theorem range_span_eq_17 (fatherHeight motherHeight : ℚ) (gender : String) :
    (calculateMidParentalHeight fatherHeight motherHeight gender).max
      - (calculateMidParentalHeight fatherHeight motherHeight gender).min = 17 := by
  rw [calculateMidParentalHeight_eq]
  simp only [mathRound_sub_margin, mathRound_add_margin]
  ring

/-- C2: for all father and mother heights and every sex value, the rounded
midpoint lies strictly between the ends of the range: `min < midpoint < max`. -/
theorem midpoint_strictly_inside (fatherHeight motherHeight : ℚ) (gender : String) :
    (calculateMidParentalHeight fatherHeight motherHeight gender).min
        < (calculateMidParentalHeight fatherHeight motherHeight gender).midpoint
      ∧ (calculateMidParentalHeight fatherHeight motherHeight gender).midpoint
        < (calculateMidParentalHeight fatherHeight motherHeight gender).max := by
  rw [calculateMidParentalHeight_eq]
  simp only [mathRound_sub_margin, mathRound_add_margin]
  have h1 := floor_le_mathRound (rawMidpoint fatherHeight motherHeight gender)
  have h2 := mathRound_le_floor_add_one (rawMidpoint fatherHeight motherHeight gender)
  constructor <;> omega

/-- C3: for father height in [140,220] and mother height in [140,200],
`calculateMidParentalHeight` agrees with the reference definition that rounds
half away from zero; the three worked examples of the specification hold. -/
theorem range_eq_reference (fatherHeight motherHeight : ℚ) (gender : String)
    (hf : 140 ≤ fatherHeight ∧ fatherHeight ≤ 220)
    (hm : 140 ≤ motherHeight ∧ motherHeight ≤ 200) :
    calculateMidParentalHeight fatherHeight motherHeight gender
        = referenceRange fatherHeight motherHeight gender
      ∧ calculateMidParentalHeight 175 160 "masculino"
        = { min := 166, max := 183, midpoint := 174 }
      ∧ calculateMidParentalHeight 175 160 "femenino"
        = { min := 153, max := 170, midpoint := 161 }
      ∧ calculateMidParentalHeight 180 165 "masculino"
        = { min := 171, max := 188, midpoint := 179 } := by
  refine ⟨?_, ?_, ?_, ?_⟩
  · have hraw := rawMidpoint_ge fatherHeight motherHeight gender hf.1 hm.1
    have e : referenceRange fatherHeight motherHeight gender =
        { min := roundHalfAwayFromZero (rawMidpoint fatherHeight motherHeight gender - 17 / 2)
          max := roundHalfAwayFromZero (rawMidpoint fatherHeight motherHeight gender + 17 / 2)
          midpoint := roundHalfAwayFromZero (rawMidpoint fatherHeight motherHeight gender) } :=
      rfl
    rw [e, calculateMidParentalHeight_eq,
      roundHalfAwayFromZero_of_nonneg _ (by linarith),
      roundHalfAwayFromZero_of_nonneg _ (by linarith),
      roundHalfAwayFromZero_of_nonneg _ (by linarith)]
    rfl
  · exact range_male_175_160
  · exact range_female_175_160
  · exact range_male_180_165

/-- Witness for C3 at father 175, mother 160, sex masculino. -/
theorem range_eq_reference_witness :
    ((140 : ℚ) ≤ 175 ∧ (175 : ℚ) ≤ 220) ∧ ((140 : ℚ) ≤ 160 ∧ (160 : ℚ) ≤ 200)
      ∧ calculateMidParentalHeight 175 160 "masculino" = referenceRange 175 160 "masculino" :=
  ⟨by norm_num, by norm_num,
    (range_eq_reference 175 160 "masculino" (by norm_num) (by norm_num)).1⟩

/-- C4 (counterexample): at father 175, mother 160, sex masculino the midpoint
174 is 8 above `min = 166` and 9 below `max = 183`, so it is not equidistant
from the two ends. -/
theorem midpoint_equidistant_counterexample :
    ¬ ((calculateMidParentalHeight 175 160 "masculino").midpoint
          - (calculateMidParentalHeight 175 160 "masculino").min
        = (calculateMidParentalHeight 175 160 "masculino").max
          - (calculateMidParentalHeight 175 160 "masculino").midpoint
      ∧ (calculateMidParentalHeight 175 160 "masculino").midpoint
          - (calculateMidParentalHeight 175 160 "masculino").min
        = mathRound (17 / 2)) := by
  rw [range_male_175_160]
  intro h
  have h1 := h.1
  simp at h1

/-- C4 (amended): the midpoint is never equidistant from the two ends; the
distances `midpoint - min` and `max - midpoint` are 8 and 9 in one order or the
other, so exactly one of them equals 8.5 rounded, which is 9. -/
theorem midpoint_offsets_eight_nine (fatherHeight motherHeight : ℚ) (gender : String) :
    mathRound (17 / 2) = 9
      ∧ (calculateMidParentalHeight fatherHeight motherHeight gender).midpoint
          - (calculateMidParentalHeight fatherHeight motherHeight gender).min
        ≠ (calculateMidParentalHeight fatherHeight motherHeight gender).max
          - (calculateMidParentalHeight fatherHeight motherHeight gender).midpoint
      ∧ (((calculateMidParentalHeight fatherHeight motherHeight gender).midpoint
            - (calculateMidParentalHeight fatherHeight motherHeight gender).min = 8
          ∧ (calculateMidParentalHeight fatherHeight motherHeight gender).max
            - (calculateMidParentalHeight fatherHeight motherHeight gender).midpoint = 9)
        ∨ ((calculateMidParentalHeight fatherHeight motherHeight gender).midpoint
            - (calculateMidParentalHeight fatherHeight motherHeight gender).min = 9
          ∧ (calculateMidParentalHeight fatherHeight motherHeight gender).max
            - (calculateMidParentalHeight fatherHeight motherHeight gender).midpoint = 8)) := by
  have h9 : mathRound (17 / 2) = 9 := by
    have e : (17 / 2 : ℚ) = ((8 : ℤ) : ℚ) + 1 / 2 := by norm_num
    rw [e, mathRound_ofInt_add_half]
    rfl
  rw [calculateMidParentalHeight_eq]
  simp only [mathRound_sub_margin, mathRound_add_margin]
  have h1 := floor_le_mathRound (rawMidpoint fatherHeight motherHeight gender)
  have h2 := mathRound_le_floor_add_one (rawMidpoint fatherHeight motherHeight gender)
  refine ⟨h9, ?_, ?_⟩ <;> omega

/-- C5: whenever `currentHeight >= max`, `calculateProgress` returns exactly
100, for every `min`. -/
theorem progress_at_or_above_max (currentHeight lo hi : ℚ) (hge : currentHeight ≥ hi) :
    calculateProgress currentHeight lo hi = JsNumber.fin 100 :=
  calculateProgress_of_ge currentHeight lo hi hge

/-- Witness for C5 at `currentHeight = max = 183`, `min = 166`. -/
theorem progress_at_or_above_max_witness :
    (183 : ℚ) ≥ 183 ∧ calculateProgress 183 166 183 = JsNumber.fin 100 :=
  ⟨le_refl _, progress_at_or_above_max 183 166 183 (le_refl _)⟩

/-- C6: for a range produced by `calculateMidParentalHeight` and every
`currentHeight <= min - 30`, `calculateProgress` returns exactly 10. -/
theorem progress_floor_ten (fatherHeight motherHeight : ℚ) (gender : String)
    (currentHeight : ℚ)
    (hle : currentHeight
      ≤ ((calculateMidParentalHeight fatherHeight motherHeight gender).min : ℚ) - 30) :
    calculateProgress currentHeight
        ((calculateMidParentalHeight fatherHeight motherHeight gender).min : ℚ)
        ((calculateMidParentalHeight fatherHeight motherHeight gender).max : ℚ)
      = JsNumber.fin 10 := by
  apply calculateProgress_of_le _ _ _ _ hle
  rw [range_max_eq_min_add]
  push_cast
  linarith

/-- Witness for C6 at father 175, mother 160, sex masculino (`min = 166`) and
`currentHeight = 136 = min - 30`. -/
theorem progress_floor_ten_witness :
    (136 : ℚ) ≤ ((calculateMidParentalHeight 175 160 "masculino").min : ℚ) - 30
      ∧ calculateProgress 136
          ((calculateMidParentalHeight 175 160 "masculino").min : ℚ)
          ((calculateMidParentalHeight 175 160 "masculino").max : ℚ)
        = JsNumber.fin 10 :=
  ⟨by rw [range_male_175_160]; norm_num,
    progress_floor_ten 175 160 "masculino" 136 (by rw [range_male_175_160]; norm_num)⟩

/-- C7: for `min - 30 < currentHeight < max` and `min + max > 0`,
`calculateProgress` equals the percentage of the range midpoint clamped to
`[10, 100]`: `min (max (currentHeight / ((min + max) / 2) * 100) 10) 100`. -/
theorem progress_middle_eq_clamp (currentHeight lo hi : ℚ)
    (hgt : lo - 30 < currentHeight) (hlt : currentHeight < hi) (hpos : lo + hi > 0) :
    calculateProgress currentHeight lo hi
      = JsNumber.fin (min (max (currentHeight / ((lo + hi) / 2) * 100) 10) 100) :=
  calculateProgress_middle currentHeight lo hi hlt hgt (ne_of_gt hpos)

/-- Witness for C7 at `currentHeight = 150`, `min = 166`, `max = 183`. -/
theorem progress_middle_eq_clamp_witness :
    ((166 : ℚ) - 30 < 150 ∧ (150 : ℚ) < 183 ∧ (166 : ℚ) + 183 > 0)
      ∧ calculateProgress 150 166 183
        = JsNumber.fin (min (max (150 / (((166 : ℚ) + 183) / 2) * 100) 10) 100) :=
  ⟨by norm_num,
    progress_middle_eq_clamp 150 166 183 (by norm_num) (by norm_num) (by norm_num)⟩

/-- C8: for `min + max > 0`, the value returned by `calculateProgress` is a
finite number in the closed interval `[10, 100]`. -/
theorem progress_in_range (currentHeight lo hi : ℚ) (hpos : lo + hi > 0) :
    ∃ q : ℚ, calculateProgress currentHeight lo hi = JsNumber.fin q ∧ 10 ≤ q ∧ q ≤ 100 := by
  by_cases hge : hi ≤ currentHeight
  · exact ⟨100, calculateProgress_of_ge _ _ _ hge, by norm_num, le_refl _⟩
  · have hlt : currentHeight < hi := not_le.mp hge
    by_cases hle : currentHeight ≤ lo - 30
    · exact ⟨10, calculateProgress_of_le _ _ _ hlt hle, le_refl _, by norm_num⟩
    · refine ⟨_, calculateProgress_middle _ _ _ hlt (not_le.mp hle) (ne_of_gt hpos), ?_, ?_⟩
      · exact le_min (le_max_right _ _) (by norm_num)
      · exact min_le_right _ _

/-- Witness for C8 at `currentHeight = 150`, `min = 166`, `max = 183`. -/
theorem progress_in_range_witness :
    (166 : ℚ) + 183 > 0
      ∧ ∃ q : ℚ, calculateProgress 150 166 183 = JsNumber.fin q ∧ 10 ≤ q ∧ q ≤ 100 :=
  ⟨by norm_num, progress_in_range 150 166 183 (by norm_num)⟩

/-- C9 (counterexample): the validated input father 175, mother 160, sex
masculino gives the range 166..183, and for the validated current height 150
`calculateProgress` returns `30000 / 349`, which is not an integer. -/
theorem progress_integer_counterexample :
    ((100 : ℚ) ≤ 150 ∧ (150 : ℚ) ≤ 220 ∧ (140 : ℚ) ≤ 175 ∧ (175 : ℚ) ≤ 220
        ∧ (140 : ℚ) ≤ 160 ∧ (160 : ℚ) ≤ 200)
      ∧ calculateProgress 150
          ((calculateMidParentalHeight 175 160 "masculino").min : ℚ)
          ((calculateMidParentalHeight 175 160 "masculino").max : ℚ)
        = JsNumber.fin (30000 / 349)
      ∧ ¬ ∃ z : ℤ, calculateProgress 150
          ((calculateMidParentalHeight 175 160 "masculino").min : ℚ)
          ((calculateMidParentalHeight 175 160 "masculino").max : ℚ)
        = JsNumber.fin (z : ℚ) := by
  have hval : calculateProgress 150
      ((calculateMidParentalHeight 175 160 "masculino").min : ℚ)
      ((calculateMidParentalHeight 175 160 "masculino").max : ℚ)
        = JsNumber.fin (30000 / 349) := by
    rw [range_male_175_160]
    rw [calculateProgress_middle _ _ _ (by norm_num) (by norm_num) (by norm_num)]
    congr 1
    have e : (150 : ℚ) / ((((166 : ℤ) : ℚ) + ((183 : ℤ) : ℚ)) / 2) * 100 = 30000 / 349 := by
      norm_num
    rw [e, max_eq_left (by norm_num), min_eq_left (by norm_num)]
  refine ⟨by norm_num, hval, ?_⟩
  rintro ⟨z, hz⟩
  rw [hval] at hz
  have hq : (30000 / 349 : ℚ) = (z : ℚ) := JsNumber.fin.inj hz
  have hz2 : (349 : ℚ) * (z : ℚ) = 30000 := by
    rw [← hq]
    norm_num
  have hz3 : (349 : ℤ) * z = 30000 := by exact_mod_cast hz2
  omega

/-- C9 (amended): for a validated current height and a range computed from
validated parental heights, `calculateProgress` returns a finite number that is
not rounded: 100 when `currentHeight >= max`, 10 when `currentHeight <= min - 30`,
and otherwise the percentage `currentHeight / ((min + max) / 2) * 100` itself,
clamped to `[10, 100]`. -/
theorem progress_validated_unrounded (currentHeight fatherHeight motherHeight : ℚ)
    (gender : String)
    (_hc : 100 ≤ currentHeight ∧ currentHeight ≤ 220)
    (hf : 140 ≤ fatherHeight ∧ fatherHeight ≤ 220)
    (hm : 140 ≤ motherHeight ∧ motherHeight ≤ 200) :
    calculateProgress currentHeight
        ((calculateMidParentalHeight fatherHeight motherHeight gender).min : ℚ)
        ((calculateMidParentalHeight fatherHeight motherHeight gender).max : ℚ)
      = if currentHeight
            ≥ ((calculateMidParentalHeight fatherHeight motherHeight gender).max : ℚ) then
          JsNumber.fin 100
        else if currentHeight
            ≤ ((calculateMidParentalHeight fatherHeight motherHeight gender).min : ℚ) - 30 then
          JsNumber.fin 10
        else
          JsNumber.fin (min (max (currentHeight
            / ((((calculateMidParentalHeight fatherHeight motherHeight gender).min : ℚ)
                + ((calculateMidParentalHeight fatherHeight motherHeight gender).max : ℚ)) / 2)
            * 100) 10) 100) := by
  have hmin := range_min_ge fatherHeight motherHeight gender hf.1 hm.1
  have hmax := range_max_eq_min_add fatherHeight motherHeight gender
  have hminq : (125 : ℚ) ≤ ((calculateMidParentalHeight fatherHeight motherHeight gender).min : ℚ) := by
    exact_mod_cast hmin
  have hmaxq : ((calculateMidParentalHeight fatherHeight motherHeight gender).max : ℚ)
      = ((calculateMidParentalHeight fatherHeight motherHeight gender).min : ℚ) + 17 := by
    exact_mod_cast hmax
  split_ifs with h1 h2
  · exact calculateProgress_of_ge _ _ _ h1
  · exact calculateProgress_of_le _ _ _ (not_le.mp h1) h2
  · exact calculateProgress_middle _ _ _ (not_le.mp h1) (not_le.mp h2) (by linarith)

/-- Witness for C9 (amended) at current height 150, father 175, mother 160,
sex masculino. -/
theorem progress_validated_unrounded_witness :
    ((100 : ℚ) ≤ 150 ∧ (150 : ℚ) ≤ 220) ∧ ((140 : ℚ) ≤ 175 ∧ (175 : ℚ) ≤ 220)
      ∧ ((140 : ℚ) ≤ 160 ∧ (160 : ℚ) ≤ 200)
      ∧ calculateProgress 150
          ((calculateMidParentalHeight 175 160 "masculino").min : ℚ)
          ((calculateMidParentalHeight 175 160 "masculino").max : ℚ)
        = if (150 : ℚ) ≥ ((calculateMidParentalHeight 175 160 "masculino").max : ℚ) then
            JsNumber.fin 100
          else if (150 : ℚ)
              ≤ ((calculateMidParentalHeight 175 160 "masculino").min : ℚ) - 30 then
            JsNumber.fin 10
          else
            JsNumber.fin (min (max ((150 : ℚ)
              / ((((calculateMidParentalHeight 175 160 "masculino").min : ℚ)
                  + ((calculateMidParentalHeight 175 160 "masculino").max : ℚ)) / 2)
              * 100) 10) 100) :=
  ⟨by norm_num, by norm_num, by norm_num,
    progress_validated_unrounded 150 175 160 "masculino" (by norm_num) (by norm_num)
      (by norm_num)⟩

/-- C10: for a range with `min <= max`, `generateExplanation` takes the
below-range branch iff `currentHeight < min`, the within-range branch iff
`min <= currentHeight <= max`, and the above-range branch iff
`currentHeight > max`; exactly one of the three conditions holds, and in the
below-range branch the two reported amounts `min - currentHeight` and
`max - currentHeight` are strictly positive. -/
theorem explanation_branches (data : FormRecord) (result : HeightRange)
    (hle : result.min ≤ result.max) :
    (generateExplanation data result
          = explanationIntro result.min result.max
            ++ belowRangeText data.currentHeight ((result.min : ℚ) - data.currentHeight)
                ((result.max : ℚ) - data.currentHeight)
        ↔ data.currentHeight < (result.min : ℚ))
      ∧ (generateExplanation data result
          = explanationIntro result.min result.max ++ withinRangeText data.currentHeight
        ↔ (result.min : ℚ) ≤ data.currentHeight ∧ data.currentHeight ≤ (result.max : ℚ))
      ∧ (generateExplanation data result
          = explanationIntro result.min result.max ++ aboveRangeText data.currentHeight
        ↔ data.currentHeight > (result.max : ℚ))
      ∧ (data.currentHeight < (result.min : ℚ)
        → 0 < (result.min : ℚ) - data.currentHeight
          ∧ 0 < (result.max : ℚ) - data.currentHeight) := by
  have hleq : (result.min : ℚ) ≤ (result.max : ℚ) := by exact_mod_cast hle
  rcases lt_or_le data.currentHeight (result.min : ℚ) with hb | hb
  · have e := generateExplanation_below data result hb
    refine ⟨⟨fun _ => hb, fun _ => e⟩, ⟨fun h => ?_, fun h => ?_⟩, ⟨fun h => ?_, fun h => ?_⟩,
      fun _ => ⟨by linarith, by linarith⟩⟩
    · rw [e] at h
      exact absurd (List.append_cancel_left h) (belowRangeText_ne_within _ _ _ _)
    · exact absurd hb (not_lt.mpr h.1)
    · rw [e] at h
      exact absurd (List.append_cancel_left h) (belowRangeText_ne_above _ _ _ _)
    · exact absurd (lt_of_le_of_lt hleq h) (not_lt.mpr (le_of_lt hb))
  · rcases le_or_lt data.currentHeight (result.max : ℚ) with hw | hw
    · have e := generateExplanation_within data result hb hw
      refine ⟨⟨fun h => ?_, fun h => ?_⟩, ⟨fun _ => ⟨hb, hw⟩, fun _ => e⟩,
        ⟨fun h => ?_, fun h => ?_⟩, fun h => absurd h (not_lt.mpr hb)⟩
      · rw [e] at h
        exact absurd (List.append_cancel_left h).symm (belowRangeText_ne_within _ _ _ _)
      · exact absurd h (not_lt.mpr hb)
      · rw [e] at h
        exact absurd (List.append_cancel_left h) (withinRangeText_ne_above _ _)
      · exact absurd h (not_lt.mpr hw)
    · have e := generateExplanation_above data result hb hw
      refine ⟨⟨fun h => ?_, fun h => ?_⟩, ⟨fun h => ?_, fun h => ?_⟩,
        ⟨fun _ => hw, fun _ => e⟩, fun h => absurd h (not_lt.mpr hb)⟩
      · rw [e] at h
        exact absurd (List.append_cancel_left h).symm (belowRangeText_ne_above _ _ _ _)
      · exact absurd h (not_lt.mpr hb)
      · rw [e] at h
        exact absurd (List.append_cancel_left h).symm (withinRangeText_ne_above _ _)
      · exact absurd h.2 (not_le.mpr hw)

/-- Witness for C10 at current height 150 and the range 166..183 (midpoint
174): the below-range branch, reporting 16 and 33. -/
theorem explanation_branches_witness :
    (166 : ℤ) ≤ 183
      ∧ generateExplanation
          { age := 12, gender := "masculino", currentHeight := 150,
            fatherHeight := 175, motherHeight := 160 }
          { min := 166, max := 183, midpoint := 174 }
        = explanationIntro 166 183 ++ belowRangeText 150 16 33 := by
  have h := (explanation_branches
    { age := 12, gender := "masculino", currentHeight := 150,
      fatherHeight := 175, motherHeight := 160 }
    { min := 166, max := 183, midpoint := 174 } (by norm_num)).1
  refine ⟨by norm_num, ?_⟩
  have e := h.mpr (by norm_num)
  norm_num at e
  exact e

/-- C11: `generateGeneticText` returns the high-average message iff
`avg >= 175`, the average-range message iff `165 <= avg < 175`, and the
one-factor message iff `avg < 165`, where `avg = (father + mother) / 2`; so
`avg = 175` gives the first and `avg = 165` the second message, and the result
does not depend on the gender argument. -/
theorem genetic_text_thresholds (fatherHeight motherHeight : ℚ) (gender : String) :
    (generateGeneticText fatherHeight motherHeight gender = highAverageText
        ↔ (fatherHeight + motherHeight) / 2 ≥ 175)
      ∧ (generateGeneticText fatherHeight motherHeight gender = averageRangeText
        ↔ 165 ≤ (fatherHeight + motherHeight) / 2 ∧ (fatherHeight + motherHeight) / 2 < 175)
      ∧ (generateGeneticText fatherHeight motherHeight gender = oneFactorText
        ↔ (fatherHeight + motherHeight) / 2 < 165)
      ∧ ((fatherHeight + motherHeight) / 2 = 175
        → generateGeneticText fatherHeight motherHeight gender = highAverageText)
      ∧ ((fatherHeight + motherHeight) / 2 = 165
        → generateGeneticText fatherHeight motherHeight gender = averageRangeText)
      ∧ ∀ other : String, generateGeneticText fatherHeight motherHeight other
          = generateGeneticText fatherHeight motherHeight gender := by
  have h12 : highAverageText ≠ averageRangeText := by decide
  have h13 : highAverageText ≠ oneFactorText := by decide
  have h23 : averageRangeText ≠ oneFactorText := by decide
  have hind : ∀ other : String, generateGeneticText fatherHeight motherHeight other
      = generateGeneticText fatherHeight motherHeight gender := fun _ => rfl
  refine ⟨?_, ?_, ?_, ?_, ?_, hind⟩
  all_goals
    by_cases h1 : (fatherHeight + motherHeight) / 2 ≥ 175
    · have e : generateGeneticText fatherHeight motherHeight gender = highAverageText := by
        simp [generateGeneticText, highAverageText, h1]
      rw [e]
      first
        | exact ⟨fun _ => h1, fun _ => rfl⟩
        | exact ⟨fun h => absurd h h12, fun h => absurd h1 (not_le.mpr h.2)⟩
        | exact ⟨fun h => absurd h h13, fun h => absurd h1 (not_le.mpr (by linarith))⟩
        | exact fun _ => rfl
        | exact fun h => absurd h1 (not_le.mpr (by linarith))
    · by_cases h2 : (fatherHeight + motherHeight) / 2 ≥ 165
      · have e : generateGeneticText fatherHeight motherHeight gender = averageRangeText := by
          simp only [generateGeneticText, averageRangeText, h1, h2, if_true, if_false]
        rw [e]
        first
          | exact ⟨fun h => absurd h.symm h12, fun h => absurd h h1⟩
          | exact ⟨fun _ => ⟨h2, not_le.mp h1⟩, fun _ => rfl⟩
          | exact ⟨fun h => absurd h h23, fun h => absurd h2 (not_le.mpr h)⟩
          | exact fun h => absurd (le_of_eq h.symm) h1
          | exact fun _ => rfl
      · have e : generateGeneticText fatherHeight motherHeight gender = oneFactorText := by
          simp only [generateGeneticText, oneFactorText, h1, h2, if_false]
        rw [e]
        first
          | exact ⟨fun h => absurd h.symm h13, fun h => absurd h h1⟩
          | exact ⟨fun h => absurd h.symm h23, fun h => absurd h.1 h2⟩
          | exact ⟨fun _ => not_le.mp h2, fun _ => rfl⟩
          | exact fun h => absurd (le_of_eq h.symm) h1
          | exact fun h => absurd (le_of_eq h.symm) h2

theorem generateAgeText_male (age : ℤ) :
    generateAgeText age "masculino"
      = if age < 12 then notStartedMaleText
        else if age ≤ 16 then peakGrowthText else growthEndingText age := by
  unfold generateAgeText notStartedMaleText peakGrowthText growthEndingText
  by_cases h1 : age < 12
  · simp [h1]
  · by_cases h2 : age ≤ 16
    · simp [h1, h2, not_lt.mp h1]
    · simp [h1, h2]

theorem generateAgeText_other (age : ℤ) (gender : String) (hg : gender ≠ "masculino") :
    generateAgeText age gender
      = if age < 10 then notStartedOtherText
        else if age ≤ 14 then peakGrowthText else growthEndingText age := by
  unfold generateAgeText notStartedOtherText peakGrowthText growthEndingText
  by_cases h1 : age < 10
  · simp [hg, h1]
  · by_cases h2 : age ≤ 14
    · simp [hg, h1, h2, not_lt.mp h1]
    · simp [hg, h1, h2]

theorem notStartedMaleText_ne_peak : notStartedMaleText ≠ peakGrowthText := by decide

theorem notStartedOtherText_ne_peak : notStartedOtherText ≠ peakGrowthText := by decide

theorem notStartedMaleText_ne_ending (age : ℤ) : notStartedMaleText ≠ growthEndingText age := by
  simp [notStartedMaleText, growthEndingText]

theorem notStartedOtherText_ne_ending (age : ℤ) :
    notStartedOtherText ≠ growthEndingText age := by
  simp [notStartedOtherText, growthEndingText]

theorem peakGrowthText_ne_ending (age : ℤ) : peakGrowthText ≠ growthEndingText age := by
  simp [peakGrowthText, growthEndingText]

/-- C12: for every integer age, `generateAgeText` for sex masculino gives the
not-yet-started message iff `age < 12`, the peak message iff `12 <= age <= 16`
and the ending message iff `age > 16`; for any other sex the buckets are
`age < 10`, `10 <= age <= 14` and `age > 14`.  Age 12 masculino gives the peak
message and age 11 masculino the not-yet-started message. -/
theorem age_text_buckets (age : ℤ) (gender : String) (hg : gender ≠ "masculino") :
    ((generateAgeText age "masculino" = notStartedMaleText ↔ age < 12)
        ∧ (generateAgeText age "masculino" = peakGrowthText ↔ 12 ≤ age ∧ age ≤ 16)
        ∧ (generateAgeText age "masculino" = growthEndingText age ↔ age > 16))
      ∧ ((generateAgeText age gender = notStartedOtherText ↔ age < 10)
        ∧ (generateAgeText age gender = peakGrowthText ↔ 10 ≤ age ∧ age ≤ 14)
        ∧ (generateAgeText age gender = growthEndingText age ↔ age > 14))
      ∧ generateAgeText 12 "masculino" = peakGrowthText
      ∧ generateAgeText 11 "masculino" = notStartedMaleText := by
  refine ⟨?_, ?_, ?_, ?_⟩
  · rw [generateAgeText_male]
    split_ifs with h1 h2
    · refine ⟨⟨fun _ => h1, fun _ => rfl⟩,
        ⟨fun h => absurd h notStartedMaleText_ne_peak, fun h => by omega⟩,
        ⟨fun h => absurd h (notStartedMaleText_ne_ending age), fun h => by omega⟩⟩
    · refine ⟨⟨fun h => absurd h.symm notStartedMaleText_ne_peak, fun h => absurd h h1⟩,
        ⟨fun _ => ⟨by omega, h2⟩, fun _ => rfl⟩,
        ⟨fun h => absurd h (peakGrowthText_ne_ending age), fun h => by omega⟩⟩
    · refine ⟨⟨fun h => absurd h.symm (notStartedMaleText_ne_ending age), fun h => absurd h h1⟩,
        ⟨fun h => absurd h.symm (peakGrowthText_ne_ending age), fun h => absurd h.2 h2⟩,
        ⟨fun _ => by omega, fun _ => rfl⟩⟩
  · rw [generateAgeText_other age gender hg]
    split_ifs with h1 h2
    · refine ⟨⟨fun _ => h1, fun _ => rfl⟩,
        ⟨fun h => absurd h notStartedOtherText_ne_peak, fun h => by omega⟩,
        ⟨fun h => absurd h (notStartedOtherText_ne_ending age), fun h => by omega⟩⟩
    · refine ⟨⟨fun h => absurd h.symm notStartedOtherText_ne_peak, fun h => absurd h h1⟩,
        ⟨fun _ => ⟨by omega, h2⟩, fun _ => rfl⟩,
        ⟨fun h => absurd h (peakGrowthText_ne_ending age), fun h => by omega⟩⟩
    · refine ⟨⟨fun h => absurd h.symm (notStartedOtherText_ne_ending age), fun h => absurd h h1⟩,
        ⟨fun h => absurd h.symm (peakGrowthText_ne_ending age), fun h => absurd h.2 h2⟩,
        ⟨fun _ => by omega, fun _ => rfl⟩⟩
  · rw [generateAgeText_male]
    norm_num
  · rw [generateAgeText_male]
    norm_num

/-- Witness for C12 at age 10 and sex femenino: the peak message. -/
theorem age_text_buckets_witness :
    "femenino" ≠ "masculino" ∧ generateAgeText 10 "femenino" = peakGrowthText :=
  ⟨by decide,
    (age_text_buckets 10 "femenino" (by decide)).2.1.2.1.mpr ⟨le_refl _, by norm_num⟩⟩

theorem validateFormData_eq_some_iff (p : ParsedForm) (r : FormRecord) :
    validateFormData p = some r
      ↔ p.age = some r.age ∧ p.gender = some r.gender ∧ r.gender ≠ ""
        ∧ p.currentHeight = JsNumber.fin r.currentHeight
        ∧ p.fatherHeight = JsNumber.fin r.fatherHeight
        ∧ p.motherHeight = JsNumber.fin r.motherHeight
        ∧ (8 ≤ r.age ∧ r.age ≤ 20)
        ∧ (100 ≤ r.currentHeight ∧ r.currentHeight ≤ 220)
        ∧ (140 ≤ r.fatherHeight ∧ r.fatherHeight ≤ 220)
        ∧ (140 ≤ r.motherHeight ∧ r.motherHeight ≤ 200) := by
  rcases p with ⟨a, g, c, f, m⟩
  rcases r with ⟨ra, rg, rc, rf, rm⟩
  cases a <;> cases g <;> cases c <;> cases f <;> cases m <;>
    simp [validateFormData, JsNumber.isNaN, JsNumber.lt]
  constructor
  · rintro ⟨h1, h2, h3, h4, h5, rfl, rfl, rfl, rfl, rfl⟩
    exact ⟨rfl, rfl, h2, rfl, rfl, rfl, h1, h3, h4, h5⟩
  · rintro ⟨rfl, rfl, h2, rfl, rfl, rfl, h1, h3, h4, h5⟩
    exact ⟨h1, h2, h3, h4, h5, rfl, rfl, rfl, rfl, rfl⟩

theorem validateFormData_example :
    validateFormData
        { age := some 12, gender := some "masculino", currentHeight := JsNumber.fin 150,
          fatherHeight := JsNumber.fin 175, motherHeight := JsNumber.fin 160 }
      = some { age := 12, gender := "masculino", currentHeight := 150,
               fatherHeight := 175, motherHeight := 160 } := by
  rw [validateFormData_eq_some_iff]
  refine ⟨rfl, rfl, by decide, rfl, rfl, rfl, ?_, ?_, ?_, ?_⟩ <;> norm_num

/-- C13: for a parsed input whose sex is masculino or femenino,
`validateFormData` returns a record iff the age is an integer in `[8, 20]`, the
current height a number in `[100, 220]`, the father height in `[140, 220]` and
the mother height in `[140, 200]` (none of them `NaN`); a returned record holds
exactly the five parsed values. -/
theorem validate_accepts_iff_in_bounds (p : ParsedForm)
    (hg : p.gender = some "masculino" ∨ p.gender = some "femenino") :
    ((∃ r : FormRecord, validateFormData p = some r)
        ↔ ∃ (a : ℤ) (c f m : ℚ), p.age = some a ∧ p.currentHeight = JsNumber.fin c
            ∧ p.fatherHeight = JsNumber.fin f ∧ p.motherHeight = JsNumber.fin m
            ∧ (8 ≤ a ∧ a ≤ 20) ∧ (100 ≤ c ∧ c ≤ 220) ∧ (140 ≤ f ∧ f ≤ 220)
            ∧ (140 ≤ m ∧ m ≤ 200))
      ∧ ∀ r : FormRecord, validateFormData p = some r →
          p.age = some r.age ∧ p.gender = some r.gender
            ∧ p.currentHeight = JsNumber.fin r.currentHeight
            ∧ p.fatherHeight = JsNumber.fin r.fatherHeight
            ∧ p.motherHeight = JsNumber.fin r.motherHeight := by
  constructor
  · constructor
    · rintro ⟨r, hr⟩
      rw [validateFormData_eq_some_iff] at hr
      obtain ⟨h1, _, _, h4, h5, h6, h7, h8, h9, h10⟩ := hr
      exact ⟨r.age, r.currentHeight, r.fatherHeight, r.motherHeight,
        h1, h4, h5, h6, h7, h8, h9, h10⟩
    · rintro ⟨a, c, f, m, h1, h4, h5, h6, h7, h8, h9, h10⟩
      rcases hg with hg | hg
      · refine ⟨{ age := a, gender := "masculino", currentHeight := c,
                  fatherHeight := f, motherHeight := m }, ?_⟩
        rw [validateFormData_eq_some_iff]
        have hne : ("masculino" : String) ≠ "" := by decide
        exact ⟨h1, hg, hne, h4, h5, h6, h7, h8, h9, h10⟩
      · refine ⟨{ age := a, gender := "femenino", currentHeight := c,
                  fatherHeight := f, motherHeight := m }, ?_⟩
        rw [validateFormData_eq_some_iff]
        have hne : ("femenino" : String) ≠ "" := by decide
        exact ⟨h1, hg, hne, h4, h5, h6, h7, h8, h9, h10⟩
  · intro r hr
    rw [validateFormData_eq_some_iff] at hr
    obtain ⟨h1, h2, _, h4, h5, h6, _⟩ := hr
    exact ⟨h1, h2, h4, h5, h6⟩

/-- Witness for C13 at age 12, sex masculino, current height 150, father 175,
mother 160: the record is returned. -/
theorem validate_accepts_iff_in_bounds_witness :
    ((some "masculino" : Option String) = some "masculino"
        ∨ (some "masculino" : Option String) = some "femenino")
      ∧ ∃ r : FormRecord, validateFormData
          { age := some 12, gender := some "masculino", currentHeight := JsNumber.fin 150,
            fatherHeight := JsNumber.fin 175, motherHeight := JsNumber.fin 160 } = some r :=
  ⟨Or.inl rfl,
    (validate_accepts_iff_in_bounds
      { age := some 12, gender := some "masculino", currentHeight := JsNumber.fin 150,
        fatherHeight := JsNumber.fin 175, motherHeight := JsNumber.fin 160 }
      (Or.inl rfl)).1.mpr
      ⟨12, 150, 175, 160, rfl, rfl, rfl, rfl, by norm_num, by norm_num, by norm_num,
        by norm_num⟩⟩

theorem calculateProgress_finite (h lo hi : ℚ) (hne : lo + hi ≠ 0) :
    ∃ q : ℚ, calculateProgress h lo hi = JsNumber.fin q := by
  by_cases hge : hi ≤ h
  · exact ⟨100, calculateProgress_of_ge _ _ _ hge⟩
  · by_cases hle : h ≤ lo - 30
    · exact ⟨10, calculateProgress_of_le _ _ _ (not_le.mp hge) hle⟩
    · exact ⟨_, calculateProgress_middle _ _ _ (not_le.mp hge) (not_le.mp hle) hne⟩

/-- C14: for every record accepted by `validateFormData`, the range computed
by `calculateMidParentalHeight` has `min + max > 0`, so the divisor
`(min + max) / 2` of `calculateProgress` is non-zero and `calculateProgress`
returns a finite number (no infinity, no `NaN`). -/
theorem core_total_on_accepted (p : ParsedForm) (r : FormRecord)
    (hacc : validateFormData p = some r) :
    0 < (calculateMidParentalHeight r.fatherHeight r.motherHeight r.gender).min
          + (calculateMidParentalHeight r.fatherHeight r.motherHeight r.gender).max
      ∧ (((calculateMidParentalHeight r.fatherHeight r.motherHeight r.gender).min : ℚ)
          + ((calculateMidParentalHeight r.fatherHeight r.motherHeight r.gender).max : ℚ)) / 2
        ≠ 0
      ∧ ∃ q : ℚ, calculateProgress r.currentHeight
          ((calculateMidParentalHeight r.fatherHeight r.motherHeight r.gender).min : ℚ)
          ((calculateMidParentalHeight r.fatherHeight r.motherHeight r.gender).max : ℚ)
        = JsNumber.fin q := by
  rw [validateFormData_eq_some_iff] at hacc
  obtain ⟨_, _, _, _, _, _, _, _, hf, hm⟩ := hacc
  have hmin := range_min_ge r.fatherHeight r.motherHeight r.gender hf.1 hm.1
  have hmax := range_max_eq_min_add r.fatherHeight r.motherHeight r.gender
  have hpos : 0 < (calculateMidParentalHeight r.fatherHeight r.motherHeight r.gender).min
      + (calculateMidParentalHeight r.fatherHeight r.motherHeight r.gender).max := by omega
  have hposq : (0 : ℚ)
      < ((calculateMidParentalHeight r.fatherHeight r.motherHeight r.gender).min : ℚ)
        + ((calculateMidParentalHeight r.fatherHeight r.motherHeight r.gender).max : ℚ) := by
    exact_mod_cast hpos
  exact ⟨hpos, ne_of_gt (by linarith), calculateProgress_finite _ _ _ (ne_of_gt hposq)⟩

/-- Witness for C14 at the accepted record age 12, sex masculino, current
height 150, father 175, mother 160. -/
theorem core_total_on_accepted_witness :
    validateFormData
        { age := some 12, gender := some "masculino", currentHeight := JsNumber.fin 150,
          fatherHeight := JsNumber.fin 175, motherHeight := JsNumber.fin 160 }
      = some { age := 12, gender := "masculino", currentHeight := 150,
               fatherHeight := 175, motherHeight := 160 }
      ∧ ∃ q : ℚ, calculateProgress 150
          ((calculateMidParentalHeight 175 160 "masculino").min : ℚ)
          ((calculateMidParentalHeight 175 160 "masculino").max : ℚ)
        = JsNumber.fin q :=
  ⟨validateFormData_example,
    (core_total_on_accepted _ _ validateFormData_example).2.2⟩

/-- C15 (counterexample): in the alternate variant, father 175 and mother 175
give `avg = 175`, yet the result is the average message, not the favorable
one; father 165 and mother 165 give `avg = 165` and the other-factors message. -/
theorem alt_genetic_boundary_counterexample :
    ¬ (Alternate.generateGeneticText 175 175 "masculino" = Alternate.favorableText
        ↔ ((175 : ℚ) + 175) / 2 ≥ 175)
      ∧ Alternate.generateGeneticText 175 175 "masculino" = Alternate.averageText
      ∧ Alternate.generateGeneticText 165 165 "masculino" = Alternate.otherFactorsText := by
  have e1 : Alternate.generateGeneticText 175 175 "masculino" = Alternate.averageText := by
    norm_num [Alternate.generateGeneticText, Alternate.averageText]
  have e2 : Alternate.generateGeneticText 165 165 "masculino" = Alternate.otherFactorsText := by
    norm_num [Alternate.generateGeneticText, Alternate.otherFactorsText]
  refine ⟨?_, e1, e2⟩
  rw [e1]
  intro h
  have hne : Alternate.averageText ≠ Alternate.favorableText := by decide
  exact hne (h.mpr (by norm_num))

/-- C15 (amended): the alternate `generateGeneticText` returns the favorable
message iff `avg > 175`, the average message iff `165 < avg <= 175`, and the
other-factors message iff `avg <= 165`, where `avg = (father + mother) / 2`; at
`avg = 175` it returns the average message and at `avg = 165` the other-factors
message. -/
theorem alt_genetic_text_thresholds (fatherHeight motherHeight : ℚ) (sexo : String) :
    (Alternate.generateGeneticText fatherHeight motherHeight sexo = Alternate.favorableText
        ↔ (fatherHeight + motherHeight) / 2 > 175)
      ∧ (Alternate.generateGeneticText fatherHeight motherHeight sexo = Alternate.averageText
        ↔ 165 < (fatherHeight + motherHeight) / 2 ∧ (fatherHeight + motherHeight) / 2 ≤ 175)
      ∧ (Alternate.generateGeneticText fatherHeight motherHeight sexo
          = Alternate.otherFactorsText
        ↔ (fatherHeight + motherHeight) / 2 ≤ 165)
      ∧ ((fatherHeight + motherHeight) / 2 = 175
        → Alternate.generateGeneticText fatherHeight motherHeight sexo = Alternate.averageText)
      ∧ ((fatherHeight + motherHeight) / 2 = 165
        → Alternate.generateGeneticText fatherHeight motherHeight sexo
          = Alternate.otherFactorsText) := by
  have h12 : Alternate.favorableText ≠ Alternate.averageText := by decide
  have h13 : Alternate.favorableText ≠ Alternate.otherFactorsText := by decide
  have h23 : Alternate.averageText ≠ Alternate.otherFactorsText := by decide
  refine ⟨?_, ?_, ?_, ?_, ?_⟩
  all_goals
    by_cases h1 : (fatherHeight + motherHeight) / 2 > 175
    · have e : Alternate.generateGeneticText fatherHeight motherHeight sexo
          = Alternate.favorableText := by
        simp only [Alternate.generateGeneticText, Alternate.favorableText, h1, if_true]
      rw [e]
      first
        | exact ⟨fun _ => h1, fun _ => rfl⟩
        | exact ⟨fun h => absurd h h12, fun h => absurd h1 (not_lt.mpr h.2)⟩
        | exact ⟨fun h => absurd h h13, fun h => absurd h1 (not_lt.mpr (by linarith))⟩
        | exact fun h => absurd h1 (not_lt.mpr (by linarith))
    · by_cases h2 : (fatherHeight + motherHeight) / 2 > 165
      · have e : Alternate.generateGeneticText fatherHeight motherHeight sexo
            = Alternate.averageText := by
          simp only [Alternate.generateGeneticText, Alternate.averageText, h1, h2, if_true,
            if_false]
        rw [e]
        first
          | exact ⟨fun h => absurd h.symm h12, fun h => absurd h h1⟩
          | exact ⟨fun _ => ⟨h2, not_lt.mp h1⟩, fun _ => rfl⟩
          | exact ⟨fun h => absurd h h23, fun h => absurd h2 (not_lt.mpr h)⟩
          | exact fun _ => rfl
          | exact fun h => absurd h2 (not_lt.mpr (le_of_eq h))
      · have e : Alternate.generateGeneticText fatherHeight motherHeight sexo
            = Alternate.otherFactorsText := by
          simp only [Alternate.generateGeneticText, Alternate.otherFactorsText, h1, h2,
            if_false]
        rw [e]
        first
          | exact ⟨fun h => absurd h.symm h13, fun h => absurd h h1⟩
          | exact ⟨fun h => absurd h.symm h23, fun h => absurd h.1 h2⟩
          | exact ⟨fun _ => not_lt.mp h2, fun _ => rfl⟩
          | exact fun _ => rfl
          | exact fun h => absurd (not_lt.mp h2) (not_le.mpr (by linarith))

theorem alt_generateAgeText_male (edad : ℤ) :
    Alternate.generateAgeText edad "masculino"
      = if edad < 13 then Alternate.preSpurtMaleText edad
        else if edad ≤ 16 then Alternate.peakMaleText edad
        else Alternate.endingMaleText edad := by
  simp [Alternate.generateAgeText, Alternate.preSpurtMaleText, Alternate.peakMaleText,
    Alternate.endingMaleText]

theorem alt_generateAgeText_other (edad : ℤ) (sexo : String) (hs : sexo ≠ "masculino") :
    Alternate.generateAgeText edad sexo
      = if edad < 11 then Alternate.preSpurtOtherText edad
        else if edad ≤ 14 then Alternate.peakOtherText edad
        else Alternate.endingOtherText edad := by
  simp [Alternate.generateAgeText, Alternate.preSpurtOtherText, Alternate.peakOtherText,
    Alternate.endingOtherText, hs]

theorem alt_preSpurtMale_ne_peak (a b : ℤ) :
    Alternate.preSpurtMaleText a ≠ Alternate.peakMaleText b := by
  simp [Alternate.preSpurtMaleText, Alternate.peakMaleText]

theorem alt_preSpurtMale_ne_ending (a b : ℤ) :
    Alternate.preSpurtMaleText a ≠ Alternate.endingMaleText b := by
  simp [Alternate.preSpurtMaleText, Alternate.endingMaleText]

theorem alt_peakMale_ne_ending (a b : ℤ) :
    Alternate.peakMaleText a ≠ Alternate.endingMaleText b := by
  simp [Alternate.peakMaleText, Alternate.endingMaleText]

theorem alt_preSpurtOther_ne_peak (a b : ℤ) :
    Alternate.preSpurtOtherText a ≠ Alternate.peakOtherText b := by
  simp [Alternate.preSpurtOtherText, Alternate.peakOtherText]

theorem alt_preSpurtOther_ne_ending (a b : ℤ) :
    Alternate.preSpurtOtherText a ≠ Alternate.endingOtherText b := by
  simp [Alternate.preSpurtOtherText, Alternate.endingOtherText]

theorem alt_peakOther_ne_ending (a b : ℤ) :
    Alternate.peakOtherText a ≠ Alternate.endingOtherText b := by
  simp [Alternate.peakOtherText, Alternate.endingOtherText]

/-- C16 (counterexample): in the alternate variant, age 12 with sex masculino
gives the pre-spurt message, not the peak-window message, although
`12 <= 12 <= 16`. -/
theorem alt_age_text_counterexample :
    ¬ (Alternate.generateAgeText 12 "masculino" = Alternate.peakMaleText 12
        ↔ (12 : ℤ) ≤ 12 ∧ (12 : ℤ) ≤ 16)
      ∧ Alternate.generateAgeText 12 "masculino" = Alternate.preSpurtMaleText 12 := by
  have e : Alternate.generateAgeText 12 "masculino" = Alternate.preSpurtMaleText 12 := by
    rw [alt_generateAgeText_male]
    norm_num
  refine ⟨?_, e⟩
  rw [e]
  intro h
  exact alt_preSpurtMale_ne_peak 12 12 (h.mpr ⟨le_refl _, by norm_num⟩)

/-- C16 (amended): for every integer age, the alternate `generateAgeText` for
sex masculino gives the pre-spurt message iff `age < 13`, the peak-window
message iff `13 <= age <= 16` and the ending message iff `age > 16`; for any
other sex the buckets are `age < 11`, `11 <= age <= 14` and `age > 14`.  Age 13
masculino gives the peak message and age 12 masculino the pre-spurt message. -/
theorem alt_age_text_buckets (edad : ℤ) (sexo : String) (hs : sexo ≠ "masculino") :
    ((Alternate.generateAgeText edad "masculino" = Alternate.preSpurtMaleText edad
          ↔ edad < 13)
        ∧ (Alternate.generateAgeText edad "masculino" = Alternate.peakMaleText edad
          ↔ 13 ≤ edad ∧ edad ≤ 16)
        ∧ (Alternate.generateAgeText edad "masculino" = Alternate.endingMaleText edad
          ↔ edad > 16))
      ∧ ((Alternate.generateAgeText edad sexo = Alternate.preSpurtOtherText edad
          ↔ edad < 11)
        ∧ (Alternate.generateAgeText edad sexo = Alternate.peakOtherText edad
          ↔ 11 ≤ edad ∧ edad ≤ 14)
        ∧ (Alternate.generateAgeText edad sexo = Alternate.endingOtherText edad
          ↔ edad > 14))
      ∧ Alternate.generateAgeText 13 "masculino" = Alternate.peakMaleText 13
      ∧ Alternate.generateAgeText 12 "masculino" = Alternate.preSpurtMaleText 12 := by
  refine ⟨?_, ?_, ?_, ?_⟩
  · rw [alt_generateAgeText_male]
    split_ifs with h1 h2
    · refine ⟨⟨fun _ => h1, fun _ => rfl⟩,
        ⟨fun h => absurd h (alt_preSpurtMale_ne_peak _ _), fun h => by omega⟩,
        ⟨fun h => absurd h (alt_preSpurtMale_ne_ending _ _), fun h => by omega⟩⟩
    · refine ⟨⟨fun h => absurd h.symm (alt_preSpurtMale_ne_peak _ _), fun h => absurd h h1⟩,
        ⟨fun _ => ⟨by omega, h2⟩, fun _ => rfl⟩,
        ⟨fun h => absurd h (alt_peakMale_ne_ending _ _), fun h => by omega⟩⟩
    · refine ⟨⟨fun h => absurd h.symm (alt_preSpurtMale_ne_ending _ _), fun h => absurd h h1⟩,
        ⟨fun h => absurd h.symm (alt_peakMale_ne_ending _ _), fun h => absurd h.2 h2⟩,
        ⟨fun _ => by omega, fun _ => rfl⟩⟩
  · rw [alt_generateAgeText_other edad sexo hs]
    split_ifs with h1 h2
    · refine ⟨⟨fun _ => h1, fun _ => rfl⟩,
        ⟨fun h => absurd h (alt_preSpurtOther_ne_peak _ _), fun h => by omega⟩,
        ⟨fun h => absurd h (alt_preSpurtOther_ne_ending _ _), fun h => by omega⟩⟩
    · refine ⟨⟨fun h => absurd h.symm (alt_preSpurtOther_ne_peak _ _), fun h => absurd h h1⟩,
        ⟨fun _ => ⟨by omega, h2⟩, fun _ => rfl⟩,
        ⟨fun h => absurd h (alt_peakOther_ne_ending _ _), fun h => by omega⟩⟩
    · refine ⟨⟨fun h => absurd h.symm (alt_preSpurtOther_ne_ending _ _), fun h => absurd h h1⟩,
        ⟨fun h => absurd h.symm (alt_peakOther_ne_ending _ _), fun h => absurd h.2 h2⟩,
        ⟨fun _ => by omega, fun _ => rfl⟩⟩
  · rw [alt_generateAgeText_male]
    norm_num
  · rw [alt_generateAgeText_male]
    norm_num

/-- Witness for C16 (amended) at age 11 and sex femenino: the peak-window
message. -/
theorem alt_age_text_buckets_witness :
    "femenino" ≠ "masculino"
      ∧ Alternate.generateAgeText 11 "femenino" = Alternate.peakOtherText 11 :=
  ⟨by decide,
    (alt_age_text_buckets 11 "femenino" (by decide)).2.1.2.1.mpr ⟨le_refl _, by norm_num⟩⟩

theorem alt_calculateProgress_mem (current min max : ℚ) (edad : ℤ) (sexo : String) :
    Alternate.calculateProgress current min max edad sexo
      ∈ (if sexo = "masculino" then Alternate.maleTable else Alternate.otherTable) := by
  unfold Alternate.calculateProgress Alternate.maleTable Alternate.otherTable
  split_ifs <;> norm_num

theorem alt_table_integer (sexo : String) (q : ℚ)
    (hq : q ∈ (if sexo = "masculino" then Alternate.maleTable else Alternate.otherTable)) :
    ∃ z : ℤ, q = (z : ℚ) ∧ 0 ≤ z ∧ z ≤ 100 := by
  unfold Alternate.maleTable Alternate.otherTable at hq
  split_ifs at hq
  · simp only [List.mem_cons, List.mem_singleton, List.not_mem_nil, or_false] at hq
    rcases hq with rfl | rfl | rfl | rfl | rfl | rfl | rfl | rfl | rfl
    · exact ⟨78, by norm_num, by norm_num, by norm_num⟩
    · exact ⟨81, by norm_num, by norm_num, by norm_num⟩
    · exact ⟨84, by norm_num, by norm_num, by norm_num⟩
    · exact ⟨88, by norm_num, by norm_num, by norm_num⟩
    · exact ⟨92, by norm_num, by norm_num, by norm_num⟩
    · exact ⟨95, by norm_num, by norm_num, by norm_num⟩
    · exact ⟨97, by norm_num, by norm_num, by norm_num⟩
    · exact ⟨99, by norm_num, by norm_num, by norm_num⟩
    · exact ⟨100, by norm_num, by norm_num, by norm_num⟩
  · simp only [List.mem_cons, List.mem_singleton, List.not_mem_nil, or_false] at hq
    rcases hq with rfl | rfl | rfl | rfl | rfl | rfl | rfl
    · exact ⟨84, by norm_num, by norm_num, by norm_num⟩
    · exact ⟨88, by norm_num, by norm_num, by norm_num⟩
    · exact ⟨92, by norm_num, by norm_num, by norm_num⟩
    · exact ⟨95, by norm_num, by norm_num, by norm_num⟩
    · exact ⟨97, by norm_num, by norm_num, by norm_num⟩
    · exact ⟨99, by norm_num, by norm_num, by norm_num⟩
    · exact ⟨100, by norm_num, by norm_num, by norm_num⟩

/-- C17: in the alternate variant, for every current height, min, max, integer
age and sex, `calculateProgress` returns an integer in `[0, 100]` that is an
entry of the lookup table of that sex. -/
theorem alt_progress_from_table (current min max : ℚ) (edad : ℤ) (sexo : String) :
    (∃ z : ℤ, Alternate.calculateProgress current min max edad sexo = (z : ℚ)
        ∧ 0 ≤ z ∧ z ≤ 100)
      ∧ Alternate.calculateProgress current min max edad sexo
        ∈ (if sexo = "masculino" then Alternate.maleTable else Alternate.otherTable) :=
  ⟨alt_table_integer sexo _ (alt_calculateProgress_mem current min max edad sexo),
    alt_calculateProgress_mem current min max edad sexo⟩

/-- C18 (counterexample): a parsed input whose sex field is the string `otro`,
with the four numbers in bounds, is accepted by `validateFormData`. -/
theorem validate_other_sex_counterexample :
    ("otro" ≠ "masculino" ∧ "otro" ≠ "femenino")
      ∧ validateFormData
          { age := some 12, gender := some "otro", currentHeight := JsNumber.fin 150,
            fatherHeight := JsNumber.fin 175, motherHeight := JsNumber.fin 160 }
        = some { age := 12, gender := "otro", currentHeight := 150,
                 fatherHeight := 175, motherHeight := 160 } := by
  refine ⟨⟨by decide, by decide⟩, ?_⟩
  rw [validateFormData_eq_some_iff]
  refine ⟨rfl, rfl, by decide, rfl, rfl, rfl, ?_, ?_, ?_, ?_⟩ <;> norm_num

/-- C18 (amended): `validateFormData` rejects every input whose sex field is
missing (`null`) or the empty string, whatever the other four fields are. -/
theorem validate_rejects_missing_sex (p : ParsedForm)
    (hg : p.gender = none ∨ p.gender = some "") :
    validateFormData p = none := by
  rcases p with ⟨a, g, c, f, m⟩
  simp only at hg
  rcases hg with rfl | rfl <;> cases a <;> simp [validateFormData]

/-- Witness for C18 (amended): an empty sex field with the four numbers in
bounds is rejected. -/
theorem validate_rejects_missing_sex_witness :
    ((some "" : Option String) = none ∨ (some "" : Option String) = some "")
      ∧ validateFormData
          { age := some 12, gender := some "", currentHeight := JsNumber.fin 150,
            fatherHeight := JsNumber.fin 175, motherHeight := JsNumber.fin 160 }
        = none :=
  ⟨Or.inr rfl,
    validate_rejects_missing_sex
      { age := some 12, gender := some "", currentHeight := JsNumber.fin 150,
        fatherHeight := JsNumber.fin 175, motherHeight := JsNumber.fin 160 } (Or.inr rfl)⟩

theorem mathRound_add_int (x : ℚ) (z : ℤ) : mathRound (x + (z : ℚ)) = mathRound x + z := by
  unfold mathRound
  have h : x + (z : ℚ) + 1 / 2 = x + 1 / 2 + (z : ℚ) := by ring
  rw [h, Int.floor_add_int]

theorem rawMidpoint_male_eq (f m : ℚ) (g : String) (hg : g ≠ "masculino") :
    rawMidpoint f m "masculino" = rawMidpoint f m g + ((13 : ℤ) : ℚ) := by
  simp only [rawMidpoint, GENDER_ADJUSTMENT, hg, if_true, if_false]
  push_cast
  ring

/-- C19: for fixed `min` and `max` with `min + max > 0`, `calculateProgress` is
monotone non-decreasing in `currentHeight`: both results are finite and the
one at the smaller height is at most the one at the larger height. -/
theorem progress_monotone (h1 h2 lo hi : ℚ) (hpos : lo + hi > 0) (hle : h1 ≤ h2) :
    ∃ q1 q2 : ℚ, calculateProgress h1 lo hi = JsNumber.fin q1
      ∧ calculateProgress h2 lo hi = JsNumber.fin q2 ∧ q1 ≤ q2 := by
  have hne : lo + hi ≠ 0 := ne_of_gt hpos
  have hmid : 0 < (lo + hi) / 2 := by linarith
  by_cases hge2 : hi ≤ h2
  · by_cases hge1 : hi ≤ h1
    · exact ⟨100, 100, calculateProgress_of_ge _ _ _ hge1, calculateProgress_of_ge _ _ _ hge2,
        le_refl _⟩
    · by_cases hlow1 : h1 ≤ lo - 30
      · exact ⟨10, 100, calculateProgress_of_le _ _ _ (not_le.mp hge1) hlow1,
          calculateProgress_of_ge _ _ _ hge2, by norm_num⟩
      · exact ⟨_, 100, calculateProgress_middle _ _ _ (not_le.mp hge1) (not_le.mp hlow1) hne,
          calculateProgress_of_ge _ _ _ hge2, min_le_right _ _⟩
  · have hlt2 : h2 < hi := not_le.mp hge2
    have hlt1 : h1 < hi := lt_of_le_of_lt hle hlt2
    by_cases hlow1 : h1 ≤ lo - 30
    · by_cases hlow2 : h2 ≤ lo - 30
      · exact ⟨10, 10, calculateProgress_of_le _ _ _ hlt1 hlow1,
          calculateProgress_of_le _ _ _ hlt2 hlow2, le_refl _⟩
      · exact ⟨10, _, calculateProgress_of_le _ _ _ hlt1 hlow1,
          calculateProgress_middle _ _ _ hlt2 (not_le.mp hlow2) hne,
          le_min (le_max_right _ _) (by norm_num)⟩
    · have hgt1 : lo - 30 < h1 := not_le.mp hlow1
      have hgt2 : lo - 30 < h2 := lt_of_lt_of_le hgt1 hle
      refine ⟨_, _, calculateProgress_middle _ _ _ hlt1 hgt1 hne,
        calculateProgress_middle _ _ _ hlt2 hgt2 hne, ?_⟩
      have hq : h1 / ((lo + hi) / 2) * 100 ≤ h2 / ((lo + hi) / 2) * 100 :=
        mul_le_mul_of_nonneg_right (div_le_div_of_nonneg_right hle (le_of_lt hmid))
          (by norm_num)
      exact min_le_min (max_le_max hq (le_refl _)) (le_refl _)

/-- Witness for C19 at heights 150 and 160 against the range 166..183. -/
theorem progress_monotone_witness :
    ((166 : ℚ) + 183 > 0 ∧ (150 : ℚ) ≤ 160)
      ∧ ∃ q1 q2 : ℚ, calculateProgress 150 166 183 = JsNumber.fin q1
        ∧ calculateProgress 160 166 183 = JsNumber.fin q2 ∧ q1 ≤ q2 :=
  ⟨by norm_num, progress_monotone 150 160 166 183 (by norm_num) (by norm_num)⟩

/-- C20: the range returned for sex masculino is the range returned for any
other sex shifted up by exactly 13 in `min`, `max` and `midpoint`. -/
theorem male_range_shift (fatherHeight motherHeight : ℚ) (gender : String)
    (hg : gender ≠ "masculino") :
    (calculateMidParentalHeight fatherHeight motherHeight "masculino").min
        = (calculateMidParentalHeight fatherHeight motherHeight gender).min + 13
      ∧ (calculateMidParentalHeight fatherHeight motherHeight "masculino").max
        = (calculateMidParentalHeight fatherHeight motherHeight gender).max + 13
      ∧ (calculateMidParentalHeight fatherHeight motherHeight "masculino").midpoint
        = (calculateMidParentalHeight fatherHeight motherHeight gender).midpoint + 13 := by
  rw [calculateMidParentalHeight_eq, calculateMidParentalHeight_eq,
    rawMidpoint_male_eq fatherHeight motherHeight gender hg]
  simp only [mathRound_sub_margin, mathRound_add_margin, mathRound_add_int,
    Int.floor_add_int]
  exact ⟨by ring, by ring, trivial⟩

/-- Witness for C20 at father 175, mother 160 and the other sex femenino. -/
theorem male_range_shift_witness :
    "femenino" ≠ "masculino"
      ∧ (calculateMidParentalHeight 175 160 "masculino").min
        = (calculateMidParentalHeight 175 160 "femenino").min + 13 :=
  ⟨by decide, (male_range_shift 175 160 "femenino" (by decide)).1⟩

theorem rawMidpoint_of_odd_sum (f m : ℚ) (g : String) (n : ℤ) (hn : f + m = (n : ℚ))
    (hodd : Odd n) : ∃ z : ℤ, rawMidpoint f m g = (z : ℚ) := by
  obtain ⟨k, hk⟩ := hodd
  unfold rawMidpoint GENDER_ADJUSTMENT
  split
  · refine ⟨k + 7, ?_⟩
    rw [hn, hk]
    push_cast
    ring
  · refine ⟨k - 6, ?_⟩
    rw [hn, hk]
    push_cast
    ring

/-- C21: the rounded midpoint sits 8 or 9 above `min`, and `max - midpoint` is
`17 - (midpoint - min)`; when `father + mother` is an odd integer, which makes
the raw midpoint an integer, `midpoint - min = 8` and `max - midpoint = 9`. -/
theorem midpoint_offsets_parity (fatherHeight motherHeight : ℚ) (gender : String) :
    ((calculateMidParentalHeight fatherHeight motherHeight gender).midpoint
          - (calculateMidParentalHeight fatherHeight motherHeight gender).min = 8
        ∨ (calculateMidParentalHeight fatherHeight motherHeight gender).midpoint
          - (calculateMidParentalHeight fatherHeight motherHeight gender).min = 9)
      ∧ (calculateMidParentalHeight fatherHeight motherHeight gender).max
          - (calculateMidParentalHeight fatherHeight motherHeight gender).midpoint
        = 17 - ((calculateMidParentalHeight fatherHeight motherHeight gender).midpoint
          - (calculateMidParentalHeight fatherHeight motherHeight gender).min)
      ∧ ∀ n : ℤ, fatherHeight + motherHeight = (n : ℚ) → Odd n →
          (calculateMidParentalHeight fatherHeight motherHeight gender).midpoint
              - (calculateMidParentalHeight fatherHeight motherHeight gender).min = 8
            ∧ (calculateMidParentalHeight fatherHeight motherHeight gender).max
              - (calculateMidParentalHeight fatherHeight motherHeight gender).midpoint = 9 := by
  rw [calculateMidParentalHeight_eq]
  simp only [mathRound_sub_margin, mathRound_add_margin]
  have h1 := floor_le_mathRound (rawMidpoint fatherHeight motherHeight gender)
  have h2 := mathRound_le_floor_add_one (rawMidpoint fatherHeight motherHeight gender)
  refine ⟨?_, ?_, ?_⟩
  · by_cases h : mathRound (rawMidpoint fatherHeight motherHeight gender)
        = ⌊rawMidpoint fatherHeight motherHeight gender⌋
    · left
      omega
    · right
      omega
  · omega
  · intro n hn hodd
    obtain ⟨z, hz⟩ := rawMidpoint_of_odd_sum fatherHeight motherHeight gender n hn hodd
    rw [hz, mathRound_ofInt, Int.floor_intCast]
    constructor <;> omega

/-- Witness for C21 at father 175, mother 160, sex masculino: the sum 335 is
odd, so the midpoint is 8 above `min` and 9 below `max`. -/
theorem midpoint_offsets_parity_witness :
    ((175 : ℚ) + 160 = ((335 : ℤ) : ℚ) ∧ Odd (335 : ℤ))
      ∧ (calculateMidParentalHeight 175 160 "masculino").midpoint
          - (calculateMidParentalHeight 175 160 "masculino").min = 8
      ∧ (calculateMidParentalHeight 175 160 "masculino").max
          - (calculateMidParentalHeight 175 160 "masculino").midpoint = 9 :=
  ⟨⟨by norm_num, by decide⟩,
    (midpoint_offsets_parity 175 160 "masculino").2.2 335 (by norm_num) (by decide)⟩

end GrowthCheck
